import Mathlib

/-!
Verification development for the canteen QR ordering backend
(`backend/src/services/database.js`, the vendor routes, and the SQL
`increment_daily_counter` function).

Modelling conventions (shallow embedding):
* Timestamps are `Nat` milliseconds since the Unix epoch (the app only ever
  handles post-1970 instants, so JS `Date.now()` values embed into `Nat`).
* JS `Date#getFullYear/getMonth/getDate` are embedded by an executable
  proleptic-Gregorian calendar walk from 1970 (`ymdOfDays`), which agrees
  with ECMAScript's `YearFromTime`/`MonthFromTime`/`DateFromTime` for
  non-negative times.  `getMonth` is 0-based and `getDate` 1-based, as in JS.
* The fixed civil timezone Asia/Kolkata is the constant offset UTC+5:30
  (no DST), i.e. 19800000 ms.
* The Supabase store is modelled as an explicit value threaded through the
  operations: the orders table is a `List Order` and the `daily_counters`
  table an association list `List (String × Nat)` keyed by the date string.
* JS errors thrown / returned by the services are modelled by the inductive
  `DbError`; each constructor is annotated with the exact JS error message
  it stands for.
* `Math.random()`-derived fragments are passed in as explicit string
  parameters, and the server-local timezone used by `toTimeString` is an
  explicit offset parameter.
-/

namespace CanteenQR

/-! ### Calendar model: JS `Date` civil fields for non-negative timestamps -/

/-- Gregorian leap-year rule, as implemented by ECMAScript `Date`. -/
def isLeap (y : Nat) : Bool :=
  (y % 4 == 0 && y % 100 != 0) || y % 400 == 0

/-- Number of days in Gregorian year `y`. -/
def daysInYear (y : Nat) : Nat :=
  if isLeap y then 366 else 365

/-- Walk forward from a base year, consuming whole years from a day count.
The first argument is structural fuel; it is always called with fuel
strictly greater than the day count, which suffices because every step
consumes at least 365 days.  Returns `(year, dayOfYear)`. -/
def yearLoop : Nat → Nat → Nat → Nat × Nat
  | 0, y, n => (y, n)
  | fuel + 1, y, n =>
    if n < daysInYear y then (y, n) else yearLoop fuel (y + 1) (n - daysInYear y)

/-- Month lengths for a (non-)leap year, January first. -/
def monthLengths (leap : Bool) : List Nat :=
  [31, if leap then 29 else 28, 31, 30, 31, 30, 31, 31, 30, 31, 30, 31]

/-- Consume whole months from a day-of-year count.  Returns the 0-based
month index (as JS `getMonth`) and the 1-based day of month (as JS
`getDate`). -/
def monthLoop : List Nat → Nat → Nat → Nat × Nat
  | [], m, n => (m, n + 1)
  | len :: rest, m, n =>
    if n < len then (m, n + 1) else monthLoop rest (m + 1) (n - len)

/-- A civil calendar date as produced by JS `getFullYear`/`getMonth`/
`getDate`: `month` is 0-based, `day` is 1-based. -/
structure Ymd where
  year : Nat
  month : Nat
  day : Nat
deriving DecidableEq, Repr

/-- Civil date of day number `n` (days since 1970-01-01). -/
def ymdOfDays (n : Nat) : Ymd :=
  let p := yearLoop (n + 1) 1970 n
  let q := monthLoop (monthLengths (isLeap p.1)) 0 p.2
  ⟨p.1, q.1, q.2⟩

def msPerDay : Nat := 86400000

/-- Fixed offset of Asia/Kolkata (UTC+5:30) in milliseconds. -/
def istOffsetMs : Nat := 19800000

/-- Day number of a timestamp in the Asia/Kolkata civil calendar. -/
def istCivilDays (ms : Nat) : Nat := (ms + istOffsetMs) / msPerDay

/-- Asia/Kolkata calendar date of a timestamp; embeds the
`new Date(d.toLocaleString('en-US', { timeZone: 'Asia/Kolkata' }))`
conversion used by `DatabaseService.isToday`. -/
def istYmd (ms : Nat) : Ymd := ymdOfDays (istCivilDays ms)

/-- `DatabaseService.isToday` (database.js:178-191): convert both instants
to Asia/Kolkata and compare `getFullYear`, `getMonth`, `getDate`. -/
def isToday (dateMs nowMs : Nat) : Bool :=
  let a := istYmd dateMs
  let b := istYmd nowMs
  a.year == b.year && a.month == b.month && a.day == b.day

/-- Zero-pad a numeral to two digits (as in an ISO date or `toTimeString`
fragment). -/
def pad2 (n : Nat) : String :=
  if n < 10 then "0" ++ toString n else toString n

/-- The UTC date key `new Date().toISOString().split('T')[0]` used by
`getNextAtomicCounter` (database.js:92): the *UTC* calendar date string
`YYYY-MM-DD` of the current instant. -/
def utcDateKey (nowMs : Nat) : String :=
  let d := ymdOfDays (nowMs / msPerDay)
  toString d.year ++ "-" ++ pad2 (d.month + 1) ++ "-" ++ pad2 d.day

/-! ### Calendar facts -/

theorem daysInYear_ge (y : Nat) : 365 ≤ daysInYear y := by
  unfold daysInYear; split <;> omega

theorem daysInYear_le (y : Nat) : daysInYear y ≤ 366 := by
  unfold daysInYear; split <;> omega

/-- Total days in the `k` consecutive years starting at year `y`. -/
def yearsSpan (y : Nat) : Nat → Nat
  | 0 => 0
  | k + 1 => daysInYear y + yearsSpan (y + 1) k

theorem yearLoop_spec :
    ∀ (fuel y n : Nat), n < fuel →
      ∃ k, yearLoop fuel y n = (y + k, n - yearsSpan y k) ∧
        yearsSpan y k ≤ n ∧ n - yearsSpan y k < daysInYear (y + k) := by
  intro fuel
  induction fuel with
  | zero => intro y n h; omega
  | succ fuel ih =>
    intro y n h
    by_cases hlt : n < daysInYear y
    · refine ⟨0, ?_, ?_, ?_⟩
      · simp [yearLoop, hlt, yearsSpan]
      · simp [yearsSpan]
      · simpa [yearsSpan] using hlt
    · have hd := daysInYear_ge y
      have hrec : n - daysInYear y < fuel := by omega
      obtain ⟨k, hk, hle, hlt'⟩ := ih (y + 1) (n - daysInYear y) hrec
      refine ⟨k + 1, ?_, ?_, ?_⟩
      · have : yearLoop (fuel + 1) y n = yearLoop fuel (y + 1) (n - daysInYear y) := by
          simp [yearLoop, hlt]
        rw [this, hk]
        have h1 : y + 1 + k = y + (k + 1) := by omega
        have h2 : n - daysInYear y - yearsSpan (y + 1) k
            = n - yearsSpan y (k + 1) := by
          simp [yearsSpan, Nat.sub_sub]
        rw [h1, h2]
      · simp only [yearsSpan]; omega
      · have h1 : y + 1 + k = y + (k + 1) := by omega
        have h2 : n - yearsSpan y (k + 1)
            = n - daysInYear y - yearsSpan (y + 1) k := by
          simp [yearsSpan, Nat.sub_sub]
        rw [h2, ← h1]
        exact hlt'

/-- Day-of-year reconstructed from a `(month, day)` pair. -/
def monthRecon (lens : List Nat) (p : Nat × Nat) : Nat :=
  (lens.take p.1).sum + p.2 - 1

set_option maxRecDepth 4000 in
theorem monthLoop_recon_leap :
    ∀ doy : Nat, doy < 366 →
      monthRecon (monthLengths true) (monthLoop (monthLengths true) 0 doy) = doy := by
  decide

set_option maxRecDepth 4000 in
theorem monthLoop_recon_common :
    ∀ doy : Nat, doy < 365 →
      monthRecon (monthLengths false) (monthLoop (monthLengths false) 0 doy) = doy := by
  decide

/-- The calendar decomposition is injective: distinct day numbers give
distinct `(year, month, day)` triples. -/
theorem ymdOfDays_inj (n₁ n₂ : Nat) (h : ymdOfDays n₁ = ymdOfDays n₂) : n₁ = n₂ := by
  obtain ⟨k₁, hk₁, hle₁, hlt₁⟩ := yearLoop_spec (n₁ + 1) 1970 n₁ (Nat.lt_succ_self _)
  obtain ⟨k₂, hk₂, hle₂, hlt₂⟩ := yearLoop_spec (n₂ + 1) 1970 n₂ (Nat.lt_succ_self _)
  unfold ymdOfDays at h
  rw [hk₁, hk₂] at h
  simp only [Ymd.mk.injEq] at h
  obtain ⟨hyear, hmonth, hday⟩ := h
  have hk : k₁ = k₂ := by omega
  subst hk
  set y := 1970 + k₁ with hy
  set doy₁ := n₁ - yearsSpan 1970 k₁ with hdoy₁
  set doy₂ := n₂ - yearsSpan 1970 k₁ with hdoy₂
  have hdoy : doy₁ = doy₂ := by
    have hpair : monthLoop (monthLengths (isLeap y)) 0 doy₁
        = monthLoop (monthLengths (isLeap y)) 0 doy₂ := by
      have e₁ := Prod.ext_iff.mpr ⟨hmonth, hday⟩
      exact e₁
    by_cases hl : isLeap y
    · have hb₁ : doy₁ < 366 := by
        have := hlt₁; unfold daysInYear at this; rw [hl] at this; simpa using this
      have hb₂ : doy₂ < 366 := by
        have := hlt₂; unfold daysInYear at this; rw [hl] at this; simpa using this
      have r₁ := monthLoop_recon_leap doy₁ hb₁
      have r₂ := monthLoop_recon_leap doy₂ hb₂
      rw [hl] at hpair
      rw [← r₁, ← r₂, hpair]
    · have hl' : isLeap y = false := by simpa using hl
      have hb₁ : doy₁ < 365 := by
        have := hlt₁; unfold daysInYear at this; rw [hl'] at this; simpa using this
      have hb₂ : doy₂ < 365 := by
        have := hlt₂; unfold daysInYear at this; rw [hl'] at this; simpa using this
      have r₁ := monthLoop_recon_common doy₁ hb₁
      have r₂ := monthLoop_recon_common doy₂ hb₂
      rw [hl'] at hpair
      rw [← r₁, ← r₂, hpair]
  omega

/-! ### Data model -/

/-- Order status, per the `CHECK (status IN (...))` constraint of the
orders table. -/
inductive Status where
  | pending
  | preparing
  | ready
  | completed
deriving DecidableEq, Repr

/-- A row of the `orders` table.  The columns that never influence the
verified operations (`user_name`, `user_email`, `phone`, `items`,
`total_amount`, `payment_id`, `payment_signature`) are carried unchanged
by every operation and omitted from the embedding. -/
structure Order where
  id : Nat
  token : String
  status : Status
  createdAt : Nat
  updatedAt : Nat
deriving DecidableEq, Repr

/-- The `orders` table. -/
abbrev Store := List Order

/-- The `daily_counters` table: `date_key ↦ counter` (the `date_key`
column is UNIQUE, so an association list keyed by the date string is a
faithful sequential model). -/
abbrev Counters := List (String × Nat)

/-- Error kinds; each constructor corresponds to one JS error:
* `orderNotFound`      — "Order not found" (404)
* `staleCompletion`    — "Cannot mark previous day orders as completed.
                          Order must be from today."
* `invalidTransition`  — "Cannot change status from X to Y" (400)
* `tokenMismatch`      — "Token mismatch"
* `tokenExpired`       — "Token expired. Valid only on order date."
* `alreadyRedeemed`    — "Token already used"
* `notReady`           — "Order not ready for pickup. Current status: X"
* `duplicateToken`     — Postgres unique-constraint violation on
                          `orders.token` -/
inductive DbError where
  | orderNotFound
  | staleCompletion
  | invalidTransition (src tgt : Status)
  | tokenMismatch
  | tokenExpired
  | alreadyRedeemed
  | notReady (s : Status)
  | duplicateToken
deriving DecidableEq, Repr

/-! ### Store primitives -/

/-- `getOrderById` (database.js:335-352): `select * where id = orderId`
(the first row carrying the id; `id` is the primary key). -/
def getOrderById : Store → Nat → Option Order
  | [], _ => none
  | o :: rest, oid => if o.id == oid then some o else getOrderById rest oid

/-- The row-level effect of
`update orders set status, updated_at where id = orderId`. -/
def setOrder (s : Store) (oid : Nat) (st : Status) (now : Nat) : Store :=
  s.map (fun o => if o.id == oid then { o with status := st, updatedAt := now } else o)

/-- The SQL function `increment_daily_counter(date_input)`
(database/atomic setup SQL): update the row for the key adding 1 if it
exists, else insert it with counter 1; returns the new counter value. -/
def incrementDailyCounter : Counters → String → Nat × Counters
  | [], k => (1, [(k, 1)])
  | (k', c) :: rest, k =>
    if k = k' then (c + 1, (k', c + 1) :: rest)
    else
      let r := incrementDailyCounter rest k
      (r.1, (k', c) :: r.2)

/-- Read the counter stored for a date key (`none` when no row exists). -/
def lookupCounter : Counters → String → Option Nat
  | [], _ => none
  | (k', c) :: rest, k => if k = k' then some c else lookupCounter rest k

/-- `getNextAtomicCounter` (database.js:90-109): call the RPC with the
*UTC* date string `new Date().toISOString().split('T')[0]` as the key. -/
def getNextAtomicCounter (cs : Counters) (nowMs : Nat) : Nat × Counters :=
  incrementDailyCounter cs (utcDateKey nowMs)

/-! ### Token generation -/

/-- `String(counter).padStart(3, '0')`. -/
def pad3 (n : Nat) : String :=
  let s := toString n
  if s.length < 3 then String.mk (List.replicate (3 - s.length) '0') ++ s else s

/-- `generateAtomicToken` (database.js:114-136).  `counter` is the RPC
result (`none` models a null/failed RPC; the JS guard is
`if (counter && counter > 0)`).  `ts6` and `rand4` stand for the
`Date.now()` digit fragment and the `Math.random()` fragment used by its
fallback branch. -/
def generateAtomicToken (pfx : String) (counter : Option Nat) (ts6 rand4 : String) : String :=
  match counter with
  | some c =>
    if c > 0 then pfx ++ "-" ++ pad3 c
    else pfx ++ "-" ++ ts6 ++ rand4
  | none => pfx ++ "-" ++ ts6 ++ rand4

/-- `generateDailyToken` (database.js:266-281): the token actually used by
order creation.  `timeStr` is the first 8 chars of
`new Date(now).toTimeString()` (the *server-local* wall clock, embedded
via the explicit offset `tzOffsetMs`) with colons removed, and `rand4` is
the 4-char `Math.random()` fragment.  Shape: `"<PFX>-<HHMMSS>-<RRRR>"`. -/
def generateDailyToken (pfx : String) (nowMs tzOffsetMs : Nat) (rand4 : String) : String :=
  let secOfDay := ((nowMs + tzOffsetMs) / 1000) % 86400
  let hh := secOfDay / 3600
  let mm := (secOfDay % 3600) / 60
  let ss := secOfDay % 60
  pfx ++ "-" ++ pad2 hh ++ pad2 mm ++ pad2 ss ++ "-" ++ rand4

/-- `createOrder` (database.js:293-330): generate a token with
`generateDailyToken`, then insert the row with status `pending`.  The
insert fails (unique-constraint violation) when some existing row already
carries the same token; on failure nothing is persisted. -/
def createOrder (s : Store) (newId : Nat) (pfx : String) (nowMs tzOffsetMs : Nat)
    (rand4 : String) : Except DbError Order × Store :=
  let token := generateDailyToken pfx nowMs tzOffsetMs rand4
  if s.any (fun o => o.token == token) then
    (.error .duplicateToken, s)
  else
    let o : Order := { id := newId, token := token, status := .pending,
                       createdAt := nowMs, updatedAt := nowMs }
    (.ok o, o :: s)

/-! ### Order lifecycle operations -/

/-- `updateOrderStatus` (database.js:438-473): load the order (throwing
"Order not found" first), reject a completion of an order not created
today, otherwise write the new status and `updated_at`.  Both error paths
throw *before* the update statement is issued, so they return the input
store unchanged. -/
def updateOrderStatus (s : Store) (oid : Nat) (st : Status) (now : Nat) :
    Except DbError Order × Store :=
  match getOrderById s oid with
  | none => (.error .orderNotFound, s)
  | some o =>
    if st == .completed && !(isToday o.createdAt now) then
      (.error .staleCompletion, s)
    else
      (.ok { o with status := st, updatedAt := now }, setOrder s oid st now)

/-- The transition table of `PATCH /api/vendor/orders/:orderId/status`
(vendor routes): `validTransitions`. -/
def validTransitions : Status → List Status
  | .pending => [.preparing, .completed]
  | .preparing => [.ready, .completed]
  | .ready => [.completed]
  | .completed => []

/-- `PATCH /api/vendor/orders/:orderId/status`: fetch the order, reject an
edge missing from `validTransitions` with a 400 error, else delegate to
`updateOrderStatus`. -/
def patchOrderStatus (s : Store) (oid : Nat) (st : Status) (now : Nat) :
    Except DbError Order × Store :=
  match getOrderById s oid with
  | none => (.error .orderNotFound, s)
  | some cur =>
    if (validTransitions cur.status).contains st then
      updateOrderStatus s oid st now
    else
      (.error (.invalidTransition cur.status st), s)

/-- `POST /api/vendor/orders/bulk-update`: after a membership check of the
target status in `['pending','preparing','ready','completed']` (always
satisfied for a well-typed `Status`), call `updateOrderStatus` for each
id in order, collecting per-id results; failures do not stop the loop. -/
def bulkUpdate (s : Store) (ids : List Nat) (st : Status) (now : Nat) :
    List (Except DbError Order) × Store :=
  match ids with
  | [] => ([], s)
  | oid :: rest =>
    let r := updateOrderStatus s oid st now
    let rs := bulkUpdate r.2 rest st now
    (r.1 :: rs.1, rs.2)

/-- `validateOrderForCompletion` (vendor routes): token match, then the
same-day rule, then not-already-completed, then status must be `ready`.
Returns `none` when the order is redeemable. -/
def validateOrderForCompletion (o : Order) (tok : String) (now : Nat) : Option DbError :=
  if o.token != tok then some .tokenMismatch
  else if !(isToday o.createdAt now) then some .tokenExpired
  else if o.status == .completed then some .alreadyRedeemed
  else if o.status != .ready then some (.notReady o.status)
  else none

/-- `POST /api/vendor/scan-qr`: the redemption operation.  Resolve the
order from the scanned id, validate it with `validateOrderForCompletion`,
then complete it through `updateOrderStatus`.  Every rejection happens
before any write. -/
def scanQr (s : Store) (oid : Nat) (tok : String) (now : Nat) :
    Except DbError Order × Store :=
  match getOrderById s oid with
  | none => (.error .orderNotFound, s)
  | some o =>
    match validateOrderForCompletion o tok now with
    | some e => (.error e, s)
    | none => updateOrderStatus s oid .completed now

/-- The token column of the store, in row order. -/
def tokens (s : Store) : List String := s.map (fun o => o.token)

/-- Iterate order creation over a list of `(id, nowMs, rand4)` requests,
threading the store; failed inserts leave the store untouched. -/
def runCreateOrders (s : Store) (pfx : String) (tz : Nat) :
    List (Nat × Nat × String) → Store
  | [] => s
  | (nid, nowMs, r4) :: rest =>
    runCreateOrders (createOrder s nid pfx nowMs tz r4).2 pfx tz rest

/-- `n` successive `increment_daily_counter` calls for the same key. -/
def iterateCounter (cs : Counters) (k : String) : Nat → Counters
  | 0 => cs
  | n + 1 => (incrementDailyCounter (iterateCounter cs k n) k).2

/-! ### Helper lemmas -/

theorem getOrderById_setOrder (s : Store) (oid : Nat) (st : Status) (now : Nat) (o : Order)
    (h : getOrderById s oid = some o) :
    getOrderById (setOrder s oid st now) oid
      = some { o with status := st, updatedAt := now } := by
  induction s with
  | nil => simp [getOrderById] at h
  | cons a t ih =>
    by_cases ha : (a.id == oid) = true
    · simp only [getOrderById, ha, if_pos] at h
      injection h with h
      subst h
      simp [setOrder, getOrderById, ha]
    · have ha' : (a.id == oid) = false := by simpa using ha
      simp only [getOrderById, ha', Bool.false_eq_true, if_false] at h
      have := ih h
      simp only [setOrder, List.map_cons] at this ⊢
      simpa [getOrderById, ha'] using this

theorem incrementDailyCounter_fst (cs : Counters) (k : String) :
    (incrementDailyCounter cs k).1 = (lookupCounter cs k).getD 0 + 1 := by
  induction cs with
  | nil => simp [incrementDailyCounter, lookupCounter]
  | cons kc rest ih =>
    obtain ⟨k', c⟩ := kc
    by_cases h : k = k'
    · simp [incrementDailyCounter, lookupCounter, h]
    · simp [incrementDailyCounter, lookupCounter, h, ih]

theorem lookupCounter_increment_self (cs : Counters) (k : String) :
    lookupCounter (incrementDailyCounter cs k).2 k
      = some ((lookupCounter cs k).getD 0 + 1) := by
  induction cs with
  | nil => simp [incrementDailyCounter, lookupCounter]
  | cons kc rest ih =>
    obtain ⟨k', c⟩ := kc
    by_cases h : k = k'
    · simp [incrementDailyCounter, lookupCounter, h]
    · simp [incrementDailyCounter, lookupCounter, h, ih]

theorem lookupCounter_increment_other (cs : Counters) (k k' : String) (h : k' ≠ k) :
    lookupCounter (incrementDailyCounter cs k).2 k' = lookupCounter cs k' := by
  induction cs with
  | nil => simp [incrementDailyCounter, lookupCounter, h]
  | cons kc rest ih =>
    obtain ⟨k₀, c⟩ := kc
    by_cases h0 : k = k₀
    · subst h0
      simp [incrementDailyCounter, lookupCounter, h]
    · by_cases h1 : k' = k₀
      · simp [incrementDailyCounter, lookupCounter, h0, h1]
      · simp [incrementDailyCounter, lookupCounter, h0, h1, ih]

theorem lookupCounter_iterate (cs : Counters) (k : String)
    (hfresh : lookupCounter cs k = none) :
    ∀ n : Nat, lookupCounter (iterateCounter cs k n) k
      = if n = 0 then none else some n := by
  intro n
  induction n with
  | zero => simpa [iterateCounter] using hfresh
  | succ n ih =>
    rw [iterateCounter, lookupCounter_increment_self, ih]
    by_cases hn : n = 0 <;> simp [hn]

theorem lookupCounter_iterate_other (cs : Counters) (k k' : String) (h : k' ≠ k) :
    ∀ n : Nat, lookupCounter (iterateCounter cs k n) k' = lookupCounter cs k' := by
  intro n
  induction n with
  | zero => rfl
  | succ n ih => rw [iterateCounter, lookupCounter_increment_other _ _ _ h, ih]

theorem iterate_increment_fst (cs : Counters) (k : String)
    (hfresh : lookupCounter cs k = none) (n : Nat) :
    (incrementDailyCounter (iterateCounter cs k n) k).1 = n + 1 := by
  rw [incrementDailyCounter_fst, lookupCounter_iterate cs k hfresh n]
  by_cases hn : n = 0 <;> simp [hn]

theorem createOrder_tokens_nodup (s : Store) (nid : Nat) (pfx : String) (nowMs tz : Nat)
    (r4 : String) (hnd : (tokens s).Nodup) :
    (tokens (createOrder s nid pfx nowMs tz r4).2).Nodup := by
  unfold createOrder
  by_cases h : s.any (fun o => o.token == generateDailyToken pfx nowMs tz r4)
  · simpa [h] using hnd
  · have h' : (s.any (fun o => o.token == generateDailyToken pfx nowMs tz r4)) = false := by
      simpa using h
    simp only [h', Bool.false_eq_true, if_false]
    rw [tokens, List.map_cons]
    refine List.nodup_cons.mpr ⟨?_, hnd⟩
    intro hmem
    obtain ⟨o, ho, htok⟩ := List.mem_map.mp hmem
    have := List.any_eq_false.mp h' o ho
    simp at this
    exact this htok

theorem runCreateOrders_tokens_nodup (pfx : String) (tz : Nat)
    (reqs : List (Nat × Nat × String)) :
    ∀ s : Store, (tokens s).Nodup → (tokens (runCreateOrders s pfx tz reqs)).Nodup := by
  induction reqs with
  | nil => intro s h; exact h
  | cons r rest ih =>
    intro s h
    obtain ⟨nid, nowMs, r4⟩ := r
    exact ih _ (createOrder_tokens_nodup s nid pfx nowMs tz r4 h)

theorem scanQr_success_eq (s : Store) (oid : Nat) (tok : String) (now : Nat) (o : Order)
    (hfind : getOrderById s oid = some o) (htok : o.token = tok)
    (hday : isToday o.createdAt now = true) (hready : o.status = .ready) :
    scanQr s oid tok now
      = (.ok { o with status := .completed, updatedAt := now },
         setOrder s oid .completed now) := by
  have hv : validateOrderForCompletion o tok now = none := by
    rw [validateOrderForCompletion]
    simp [htok, hday, hready]
  simp only [scanQr, hfind, hv, updateOrderStatus]
  simp [hday]

theorem scanQr_completed_eq (s : Store) (oid : Nat) (tok : String) (now : Nat) (o : Order)
    (hfind : getOrderById s oid = some o) (htok : o.token = tok)
    (hday : isToday o.createdAt now = true) (hcomp : o.status = .completed) :
    scanQr s oid tok now = (.error .alreadyRedeemed, s) := by
  have hv : validateOrderForCompletion o tok now = some .alreadyRedeemed := by
    rw [validateOrderForCompletion]
    simp [htok, hday, hcomp]
  simp only [scanQr, hfind, hv]

/-! ### Claims -/

/-- C1 counterexample: the token persisted by order creation does *not*
have the sequential `"<PREFIX>-<NNN>"` form.  The very first order of a
day (fresh store) would have to be `"T-001"` under the claim, but
`createOrder` persists the `generateDailyToken` value
`"T-000000-AB12"` (time-of-day plus random), which differs from
`"T-" ++ pad3 1 = "T-001"`. -/
theorem C1_counterexample :
    ((createOrder [] 1 "T" 0 0 "AB12").1.toOption.map (fun o => o.token))
        = some "T-000000-AB12" ∧
    (createOrder [] 1 "T" 0 0 "AB12").2
        = [{ id := 1, token := "T-000000-AB12", status := .pending,
             createdAt := 0, updatedAt := 0 }] ∧
    "T-000000-AB12" ≠ "T-" ++ pad3 1 := by
  refine ⟨rfl, rfl, ?_⟩
  decide

/-- C1 (amended): only the unused atomic path `generateAtomicToken`
returns the sequential `"<PREFIX>-<NNN>"` form — when the counter RPC
succeeds it yields `pfx ++ "-" ++ pad3 n` for the n-th allocation of its
day key — whereas `createOrder` persists the `generateDailyToken` value,
a time-of-day-plus-random string, not a sequence number. -/
theorem C1_token_shapes (pfx ts6 k r4 : String) (cs : Counters) (n : Nat)
    (s : Store) (nid nowMs tz : Nat)
    (hfresh : lookupCounter cs k = none) :
    generateAtomicToken pfx
        (some ((incrementDailyCounter (iterateCounter cs k n) k).1)) ts6 r4
      = pfx ++ "-" ++ pad3 (n + 1) ∧
    (∀ o, (createOrder s nid pfx nowMs tz r4).1 = .ok o →
      o.token = generateDailyToken pfx nowMs tz r4) := by
  constructor
  · rw [iterate_increment_fst cs k hfresh n]
    simp [generateAtomicToken]
  · intro o h
    unfold createOrder at h
    by_cases hc : s.any (fun o => o.token == generateDailyToken pfx nowMs tz r4)
    · simp [hc] at h
    · have hc' : (s.any (fun o => o.token == generateDailyToken pfx nowMs tz r4)) = false := by
        simpa using hc
      simp only [hc', Bool.false_eq_true, if_false] at h
      injection h with h
      subst h
      rfl

/-- Witness for C1_token_shapes at concrete inputs. -/
theorem C1_token_shapes_witness :
    generateAtomicToken "T"
        (some ((incrementDailyCounter (iterateCounter [] "2024-03-01" 0) "2024-03-01").1))
        "123456" "ABCD"
      = "T" ++ "-" ++ pad3 (0 + 1) :=
  (C1_token_shapes "T" "123456" "2024-03-01" "ABCD" [] 0 [] 1 0 0 rfl).1

/-- C2 counterexample: `POST /orders/bulk-update` performs a
`completed → pending` transition — an edge absent from the transition
table — successfully, mutating the stored status instead of rejecting it
with an InvalidTransition error; so the status does regress and does
leave `completed`. -/
theorem C2_counterexample :
    (bulkUpdate [{ id := 1, token := "T-001", status := .completed,
                   createdAt := 0, updatedAt := 0 }] [1] .pending 0).2
        = [{ id := 1, token := "T-001", status := .pending,
             createdAt := 0, updatedAt := 0 }] ∧
    ((bulkUpdate [{ id := 1, token := "T-001", status := .completed,
                    createdAt := 0, updatedAt := 0 }] [1] .pending 0).1.map
        Except.toOption)
        = [some { id := 1, token := "T-001", status := .pending,
                  createdAt := 0, updatedAt := 0 }] := by
  constructor <;> rfl

/-- C2 (amended): only the single-order route
`PATCH /orders/:orderId/status` enforces the transition table — any edge
absent from `validTransitions` is rejected there with an
InvalidTransition error and the store is left unchanged — while
`updateOrderStatus` itself (hence `POST /orders/bulk-update`) applies
any of the four statuses, gated only by the same-day rule for
`completed`. -/
theorem C2_patch_route_rejects_invalid (s : Store) (oid : Nat) (st : Status) (now : Nat)
    (o : Order) (hfind : getOrderById s oid = some o)
    (hbad : (validTransitions o.status).contains st = false) :
    patchOrderStatus s oid st now = (.error (.invalidTransition o.status st), s) := by
  simp only [patchOrderStatus, hfind, hbad, Bool.false_eq_true, if_false]

/-- Witness for C2_patch_route_rejects_invalid: `ready → pending` is
rejected by the PATCH route and the store is untouched. -/
theorem C2_patch_route_rejects_invalid_witness :
    patchOrderStatus [{ id := 1, token := "T-001", status := .ready,
                        createdAt := 0, updatedAt := 0 }] 1 .pending 0
      = (.error (.invalidTransition .ready .pending),
         [{ id := 1, token := "T-001", status := .ready,
            createdAt := 0, updatedAt := 0 }]) :=
  C2_patch_route_rejects_invalid _ 1 .pending 0
    { id := 1, token := "T-001", status := .ready, createdAt := 0, updatedAt := 0 }
    rfl rfl

/-- C6 counterexample: the allocator's day bucket is the *UTC* calendar
date, not the Asia/Kolkata one.  `1709317799999` is
2024-03-01 23:59:59.999 IST and `1709317800000` is 2024-03-02
00:00:00.000 IST — different civil days (`isToday` is `false`) — yet
both map to the same counter key `"2024-03-01"` (their UTC date), so the
second allocation draws counter 2 from the same bucket instead of
restarting at 1. -/
theorem C6_counterexample :
    utcDateKey 1709317799999 = utcDateKey 1709317800000 ∧
    isToday 1709317799999 1709317800000 = false ∧
    getNextAtomicCounter [] 1709317799999 = (1, [("2024-03-01", 1)]) ∧
    (getNextAtomicCounter
        (getNextAtomicCounter [] 1709317799999).2 1709317800000).1 = 2 := by
  refine ⟨rfl, by decide, rfl, rfl⟩

/-- C6 (amended): the counter key is the UTC date string from
`toISOString`, so the bucket resets at UTC midnight (05:30 IST), not at
local midnight: the 23:59:59.999-IST and 00:00:00.000-IST allocations
share one bucket and yield `"T-001"` and `"T-002"`; moreover the orders
table enforces *global* token uniqueness, so the same literal token can
never recur, even on a different day. -/
theorem C6_utc_bucket_and_global_uniqueness :
    generateAtomicToken "T"
        (some (getNextAtomicCounter [] 1709317799999).1) "x6" "r4" = "T-001" ∧
    generateAtomicToken "T"
        (some (getNextAtomicCounter
          (getNextAtomicCounter [] 1709317799999).2 1709317800000).1) "x6" "r4"
      = "T-002" ∧
    isToday 1709317799999 1709317800000 = false ∧
    (createOrder [{ id := 1, token := "T-000000-AB12", status := .pending,
                    createdAt := 0, updatedAt := 0 }] 2 "T" 0 0 "AB12").1
      = .error .duplicateToken := by
  refine ⟨rfl, rfl, by decide, rfl⟩

/-- C8: `isToday` returns `true` exactly when the two timestamps have the
same calendar year, month and day after conversion to the fixed
UTC+5:30 civil timezone, which happens exactly when they fall in the
same Asia/Kolkata civil day; the result depends only on the civil day
numbers, never on the raw instant difference. -/
theorem C8_isToday_civil_day_equality (a b : Nat) :
    (isToday a b = true ↔ istYmd a = istYmd b) ∧
    (isToday a b = true ↔ istCivilDays a = istCivilDays b) := by
  have h1 : ∀ u v : Ymd,
      (u.year == v.year && u.month == v.month && u.day == v.day) = true ↔ u = v := by
    intro u v
    cases u; cases v
    simp [Ymd.mk.injEq, Bool.and_eq_true]
    tauto
  have hfirst : isToday a b = true ↔ istYmd a = istYmd b := by
    simpa [isToday] using h1 (istYmd a) (istYmd b)
  refine ⟨hfirst, hfirst.trans ?_⟩
  constructor
  · intro h
    exact ymdOfDays_inj _ _ h
  · intro h
    unfold istYmd
    rw [h]

/-- C3: the redemption operation (`POST /scan-qr` resolving the scanned
order and validating it with `validateOrderForCompletion`) fails with
TokenExpired when the order's creation day differs from the current
civil day, with AlreadyRedeemed when its status is `completed`, with
NotReady when its status is `pending` or `preparing`, with NotFound when
no order resolves; it completes the order only when the order exists,
was created today, and is `ready` — and every failure leaves the store
unchanged. -/
theorem C3_redeem_error_taxonomy (s : Store) (oid : Nat) (tok : String) (now : Nat) :
    (getOrderById s oid = none → scanQr s oid tok now = (.error .orderNotFound, s)) ∧
    (∀ o, getOrderById s oid = some o → o.token = tok →
      ((isToday o.createdAt now = false →
          scanQr s oid tok now = (.error .tokenExpired, s)) ∧
       (isToday o.createdAt now = true → o.status = .completed →
          scanQr s oid tok now = (.error .alreadyRedeemed, s)) ∧
       (isToday o.createdAt now = true →
          (o.status = .pending ∨ o.status = .preparing) →
          scanQr s oid tok now = (.error (.notReady o.status), s)) ∧
       (isToday o.createdAt now = true → o.status = .ready →
          scanQr s oid tok now
            = (.ok { o with status := .completed, updatedAt := now },
               setOrder s oid .completed now)))) := by
  constructor
  · intro h
    simp only [scanQr, h]
  · intro o hfind htok
    refine ⟨?_, ?_, ?_, ?_⟩
    · intro hday
      have hv : validateOrderForCompletion o tok now = some .tokenExpired := by
        rw [validateOrderForCompletion]
        simp [htok, hday]
      simp only [scanQr, hfind, hv]
    · intro hday hcomp
      exact scanQr_completed_eq s oid tok now o hfind htok hday hcomp
    · intro hday hst
      have hne1 : o.status ≠ Status.completed := by
        rcases hst with h | h <;> simp [h]
      have hne2 : o.status ≠ Status.ready := by
        rcases hst with h | h <;> simp [h]
      have hv : validateOrderForCompletion o tok now = some (.notReady o.status) := by
        rw [validateOrderForCompletion]
        simp [htok, hday, hne1, hne2]
      simp only [scanQr, hfind, hv]
    · intro hday hready
      exact scanQr_success_eq s oid tok now o hfind htok hday hready

/-- Witness for C3_redeem_error_taxonomy: each error and the success are
exercised at concrete inputs (epoch instant `0` is today relative to
itself; `86400000` is the next civil day). -/
theorem C3_redeem_error_taxonomy_witness :
    scanQr [] 1 "T-001" 0 = (.error .orderNotFound, []) ∧
    scanQr [{ id := 1, token := "T-001", status := .ready,
              createdAt := 0, updatedAt := 0 }] 1 "T-001" 86400000
      = (.error .tokenExpired,
         [{ id := 1, token := "T-001", status := .ready,
            createdAt := 0, updatedAt := 0 }]) ∧
    scanQr [{ id := 1, token := "T-001", status := .completed,
              createdAt := 0, updatedAt := 0 }] 1 "T-001" 0
      = (.error .alreadyRedeemed,
         [{ id := 1, token := "T-001", status := .completed,
            createdAt := 0, updatedAt := 0 }]) ∧
    scanQr [{ id := 1, token := "T-001", status := .pending,
              createdAt := 0, updatedAt := 0 }] 1 "T-001" 0
      = (.error (.notReady .pending),
         [{ id := 1, token := "T-001", status := .pending,
            createdAt := 0, updatedAt := 0 }]) ∧
    scanQr [{ id := 1, token := "T-001", status := .ready,
              createdAt := 0, updatedAt := 0 }] 1 "T-001" 0
      = (.ok { id := 1, token := "T-001", status := .completed,
               createdAt := 0, updatedAt := 0 },
         setOrder [{ id := 1, token := "T-001", status := .ready,
                     createdAt := 0, updatedAt := 0 }] 1 .completed 0) := by
  refine ⟨(C3_redeem_error_taxonomy [] 1 "T-001" 0).1 rfl, ?_, ?_, ?_, ?_⟩
  · exact ((C3_redeem_error_taxonomy
      [{ id := 1, token := "T-001", status := .ready, createdAt := 0, updatedAt := 0 }]
      1 "T-001" 86400000).2
      { id := 1, token := "T-001", status := .ready, createdAt := 0, updatedAt := 0 }
      rfl rfl).1 (by decide)
  · exact ((C3_redeem_error_taxonomy
      [{ id := 1, token := "T-001", status := .completed, createdAt := 0, updatedAt := 0 }]
      1 "T-001" 0).2
      { id := 1, token := "T-001", status := .completed, createdAt := 0, updatedAt := 0 }
      rfl rfl).2.1 (by decide) rfl
  · exact ((C3_redeem_error_taxonomy
      [{ id := 1, token := "T-001", status := .pending, createdAt := 0, updatedAt := 0 }]
      1 "T-001" 0).2
      { id := 1, token := "T-001", status := .pending, createdAt := 0, updatedAt := 0 }
      rfl rfl).2.2.1 (by decide) (Or.inl rfl)
  · exact ((C3_redeem_error_taxonomy
      [{ id := 1, token := "T-001", status := .ready, createdAt := 0, updatedAt := 0 }]
      1 "T-001" 0).2
      { id := 1, token := "T-001", status := .ready, createdAt := 0, updatedAt := 0 }
      rfl rfl).2.2.2 (by decide) rfl

/-- C4: `updateOrderStatus` may set `completed` only when the order's
`created_at` falls in the current civil day — otherwise it fails with
the business-rule error — while any non-completed target status is
written regardless of the order's creation day. -/
theorem C4_completion_same_day_gate (s : Store) (oid : Nat) (st : Status) (now : Nat)
    (o : Order) (hfind : getOrderById s oid = some o) :
    (st = .completed → isToday o.createdAt now = false →
      updateOrderStatus s oid st now = (.error .staleCompletion, s)) ∧
    (st ≠ .completed →
      updateOrderStatus s oid st now
        = (.ok { o with status := st, updatedAt := now }, setOrder s oid st now)) := by
  constructor
  · intro hst hday
    subst hst
    simp only [updateOrderStatus, hfind, hday]
    simp
  · intro hst
    have hb : (st == Status.completed) = false := by
      cases st <;> simp_all
    simp only [updateOrderStatus, hfind, hb, Bool.false_and, Bool.false_eq_true, if_false]

/-- Witness for C4_completion_same_day_gate: on an order created at the
epoch, a completion attempted the next civil day fails with the store
untouched, while `preparing` is still accepted that later day. -/
theorem C4_completion_same_day_gate_witness :
    updateOrderStatus [{ id := 1, token := "T-001", status := .ready,
                         createdAt := 0, updatedAt := 0 }] 1 .completed 86400000
      = (.error .staleCompletion,
         [{ id := 1, token := "T-001", status := .ready,
            createdAt := 0, updatedAt := 0 }]) ∧
    updateOrderStatus [{ id := 1, token := "T-001", status := .ready,
                         createdAt := 0, updatedAt := 0 }] 1 .preparing 86400000
      = (.ok { id := 1, token := "T-001", status := .preparing,
               createdAt := 0, updatedAt := 86400000 },
         setOrder [{ id := 1, token := "T-001", status := .ready,
                     createdAt := 0, updatedAt := 0 }] 1 .preparing 86400000) := by
  constructor
  · exact (C4_completion_same_day_gate
      [{ id := 1, token := "T-001", status := .ready, createdAt := 0, updatedAt := 0 }]
      1 .completed 86400000
      { id := 1, token := "T-001", status := .ready, createdAt := 0, updatedAt := 0 }
      rfl).1 rfl (by decide)
  · exact (C4_completion_same_day_gate
      [{ id := 1, token := "T-001", status := .ready, createdAt := 0, updatedAt := 0 }]
      1 .preparing 86400000
      { id := 1, token := "T-001", status := .ready, createdAt := 0, updatedAt := 0 }
      rfl).2 (by decide)

/-- C5: scanning the token of an order created today with status `ready`
twice on the same day succeeds exactly once — the first scan completes
the order, the second fails with AlreadyRedeemed and the order stays
completed. -/
theorem C5_second_scan_already_redeemed (s : Store) (oid : Nat) (tok : String) (now : Nat)
    (o : Order) (hfind : getOrderById s oid = some o) (htok : o.token = tok)
    (hday : isToday o.createdAt now = true) (hready : o.status = .ready) :
    scanQr s oid tok now
      = (.ok { o with status := .completed, updatedAt := now },
         setOrder s oid .completed now) ∧
    scanQr (setOrder s oid .completed now) oid tok now
      = (.error .alreadyRedeemed, setOrder s oid .completed now) ∧
    getOrderById (setOrder s oid .completed now) oid
      = some { o with status := .completed, updatedAt := now } := by
  have hfind' := getOrderById_setOrder s oid .completed now o hfind
  refine ⟨scanQr_success_eq s oid tok now o hfind htok hday hready, ?_, hfind'⟩
  exact scanQr_completed_eq _ oid tok now _ hfind' htok hday rfl

/-- Witness for C5_second_scan_already_redeemed at a concrete store. -/
theorem C5_second_scan_already_redeemed_witness :
    scanQr [{ id := 1, token := "T-001", status := .ready,
              createdAt := 0, updatedAt := 0 }] 1 "T-001" 0
      = (.ok { id := 1, token := "T-001", status := .completed,
               createdAt := 0, updatedAt := 0 },
         setOrder [{ id := 1, token := "T-001", status := .ready,
                     createdAt := 0, updatedAt := 0 }] 1 .completed 0) ∧
    scanQr (setOrder [{ id := 1, token := "T-001", status := .ready,
                        createdAt := 0, updatedAt := 0 }] 1 .completed 0) 1 "T-001" 0
      = (.error .alreadyRedeemed,
         setOrder [{ id := 1, token := "T-001", status := .ready,
                     createdAt := 0, updatedAt := 0 }] 1 .completed 0) ∧
    getOrderById (setOrder [{ id := 1, token := "T-001", status := .ready,
                              createdAt := 0, updatedAt := 0 }] 1 .completed 0) 1
      = some { id := 1, token := "T-001", status := .completed,
               createdAt := 0, updatedAt := 0 } :=
  C5_second_scan_already_redeemed _ 1 "T-001" 0
    { id := 1, token := "T-001", status := .ready, createdAt := 0, updatedAt := 0 }
    rfl rfl (by decide) rfl

/-- C7: persisted token values are pairwise distinct (the insert is
rejected on a duplicate token by the UNIQUE constraint), so any sequence
of successful order creations — in particular all those of one civil
day — yields pairwise distinct tokens. -/
theorem C7_tokens_pairwise_distinct (s : Store) (pfx : String) (tz : Nat)
    (reqs : List (Nat × Nat × String)) (hnd : (tokens s).Nodup) :
    (tokens (runCreateOrders s pfx tz reqs)).Nodup ∧
    (∀ o₁ ∈ runCreateOrders s pfx tz reqs, ∀ o₂ ∈ runCreateOrders s pfx tz reqs,
      o₁ ≠ o₂ → o₁.token ≠ o₂.token) := by
  have hres := runCreateOrders_tokens_nodup pfx tz reqs s hnd
  refine ⟨hres, ?_⟩
  intro o₁ h₁ o₂ h₂ hne heq
  have hres' : ((runCreateOrders s pfx tz reqs).map (fun o => o.token)).Nodup := hres
  exact hne (List.inj_on_of_nodup_map hres' h₁ h₂ heq)

/-- Witness for C7_tokens_pairwise_distinct: two creations on a fresh
store leave a duplicate-free token column. -/
theorem C7_tokens_pairwise_distinct_witness :
    (tokens (runCreateOrders [] "T" 0 [(1, 0, "AAAA"), (2, 1000, "BBBB")])).Nodup :=
  (C7_tokens_pairwise_distinct [] "T" 0 [(1, 0, "AAAA"), (2, 1000, "BBBB")]
    List.nodup_nil).1

/-- C9: starting from a state with no row for `dateKey`, the n-th
sequential `increment_daily_counter(dateKey)` call returns n (the first
call creates the row at 1, each later call adds exactly 1), and calls
for one dateKey never change another dateKey's counter. -/
theorem C9_counter_sequential (cs : Counters) (k k' : String) (n : Nat)
    (hfresh : lookupCounter cs k = none) (hne : k' ≠ k) :
    (incrementDailyCounter (iterateCounter cs k n) k).1 = n + 1 ∧
    lookupCounter (iterateCounter cs k (n + 1)) k = some (n + 1) ∧
    lookupCounter (iterateCounter cs k n) k' = lookupCounter cs k' := by
  refine ⟨iterate_increment_fst cs k hfresh n, ?_,
    lookupCounter_iterate_other cs k k' hne n⟩
  rw [lookupCounter_iterate cs k hfresh (n + 1)]
  simp

/-- Witness for C9_counter_sequential: the third call for a key returns 3
and an unrelated key stays absent. -/
theorem C9_counter_sequential_witness :
    (incrementDailyCounter (iterateCounter [] "2024-03-01" 2) "2024-03-01").1 = 3 ∧
    lookupCounter (iterateCounter [] "2024-03-01" 2) "2024-03-02"
      = lookupCounter [] "2024-03-02" := by
  have h := C9_counter_sequential [] "2024-03-01" "2024-03-02" 2 rfl (by decide)
  exact ⟨h.1, h.2.2⟩

/-- C10: when `updateOrderStatus` fails — unresolvable order id, or a
completion rejected by the same-day rule — the stored rows are left
entirely unchanged, because the error is thrown before the update
statement is issued. -/
theorem C10_failed_update_preserves_store (s : Store) (oid : Nat) (st : Status) (now : Nat) :
    (getOrderById s oid = none →
      updateOrderStatus s oid st now = (.error .orderNotFound, s)) ∧
    (∀ o, getOrderById s oid = some o → st = .completed →
      isToday o.createdAt now = false →
      updateOrderStatus s oid st now = (.error .staleCompletion, s)) := by
  constructor
  · intro h
    simp only [updateOrderStatus, h]
  · intro o hfind hst hday
    subst hst
    simp only [updateOrderStatus, hfind, hday]
    simp

/-- Witness for C10_failed_update_preserves_store on concrete stores. -/
theorem C10_failed_update_preserves_store_witness :
    updateOrderStatus [] 7 .ready 0 = (.error .orderNotFound, []) ∧
    updateOrderStatus [{ id := 2, token := "T-002", status := .ready,
                         createdAt := 0, updatedAt := 0 }] 2 .completed 86400000
      = (.error .staleCompletion,
         [{ id := 2, token := "T-002", status := .ready,
            createdAt := 0, updatedAt := 0 }]) := by
  constructor
  · exact (C10_failed_update_preserves_store [] 7 .ready 0).1 rfl
  · exact (C10_failed_update_preserves_store _ 2 .completed 86400000).2
      { id := 2, token := "T-002", status := .ready, createdAt := 0, updatedAt := 0 }
      rfl rfl (by decide)

end CanteenQR
